import Mathlib

/-!
Shallow embedding of the orchestrator core of `src/server.js`: the upstream
error mapper (`mapUpstreamError`), the availability aggregator
(`GET /disponibilidad`, a two-way `Promise.all` join of catalog and
inventory), and the recipe validator
(`GET /recetas/:id_receta/validacion`), together with theorems checking
the natural-language specification against this embedding.

Modelling conventions:
- JSON payloads are the inductive `JSVal`; numeric quantities are `Int`
  (the claims under study do not involve fractional or NaN arithmetic).
- An axios failure is `UpErr`: `httpError status body` when the upstream
  responded with a non-2xx status (`e.response` present), `unreachable`
  when no response was received (`e.request` present), and `localError`
  otherwise; `localError` carries the `String(e)` rendering of the error.
- A field that JavaScript duck-typing may find absent/null is an `Option`.
- `Promise.all` over two already-started promises is `promiseAll2`,
  parameterised by which promise settles first; the parameter only
  matters when both reject, which is exactly the nondeterminism of the
  JavaScript semantics (the first rejection in time wins).
-/

/-- A JSON value, the shape of upstream payloads and response bodies. -/
inductive JSVal where
  | null : JSVal
  | bool (b : Bool) : JSVal
  | num (n : Int) : JSVal
  | str (s : String) : JSVal
  | arr (elems : List JSVal) : JSVal
  | obj (fields : List (String × JSVal)) : JSVal

/-- Failure taxonomy of the axios client as observed by `mapUpstreamError`:
`e.response` present ↦ `httpError`, `e.request` present without a
response ↦ `unreachable`, anything else ↦ `localError` with its
stringification. -/
inductive UpErr where
  | httpError (status : Int) (body : JSVal) : UpErr
  | unreachable : UpErr
  | localError (msg : String) : UpErr

/-- `mapUpstreamError` from `src/server.js` lines 64-79: turns a failure
into an HTTP `(status, body)` pair. -/
def mapUpstreamError : UpErr → Int × JSVal
  | .httpError status body =>
      (status, .obj [("error", .str "Upstream error"),
                     ("upstream_status", .num status),
                     ("upstream_body", body)])
  | .unreachable =>
      (504, .obj [("error", .str "Upstream timeout/unreachable")])
  | .localError msg =>
      (500, .obj [("error", .str "Orchestrator error"),
                  ("detail", .str msg)])

/-- Modelled from the spec's error-mapping table (§4.4), word for word, to
be compared with the source-derived `mapUpstreamError`:
`UpstreamHTTPError{status,body}` ↦ pass-through status with
`{error, upstream_status, upstream_body}`; `UpstreamUnreachable` ↦ 504
with `{error}`; any other failure ↦ 500 with `{error, detail}`. -/
def errorMapperSpec : UpErr → Int × JSVal
  | .httpError status body =>
      (status, .obj [("error", .str "Upstream error"),
                     ("upstream_status", .num status),
                     ("upstream_body", body)])
  | .unreachable =>
      (504, .obj [("error", .str "Upstream timeout/unreachable")])
  | .localError msg =>
      (500, .obj [("error", .str "Orchestrator error"),
                  ("detail", .str msg)])

/-- A stock entry as the reconciliation logic reads it: the three possible
quantity field names (any may be absent/null) and the optional branch id. -/
structure StockEntry where
  cantidad_actual : Option Int
  stock_actual : Option Int
  cantidad : Option Int
  id_sucursal : Option String
deriving DecidableEq, Repr

/-- `cantidadField` from `src/server.js` lines 135-136:
`s.cantidad_actual ?? s.stock_actual ?? s.cantidad ?? 0`
(nullish coalescing: `0` is kept, only absent/null falls through). -/
def cantidadField (s : StockEntry) : Int :=
  s.cantidad_actual.getD (s.stock_actual.getD (s.cantidad.getD 0))

/-- One entry of `receta.detalle`: product id and requested quantity. -/
structure Ingrediente where
  id_producto : String
  cantidad : Int
deriving DecidableEq, Repr

/-- The recipe payload as the validator reads it; `detalle` is `none`
when the field is absent or null (the code guards with
`receta.detalle || []`). -/
structure Receta where
  id_receta : String
  detalle : Option (List Ingrediente)

/-- Per-ingredient validation result built at lines 144-149. -/
structure ValidationItem where
  id_producto : String
  solicitado : Int
  disponible : Int
  id_sucursal_sugerida : Option String
deriving DecidableEq, Repr

/-- `total` at line 138: `(stockList || []).reduce((acc, s) => acc +
Number(cantidadField(s)), 0)`. -/
def totalDisponible (stockList : Option (List StockEntry)) : Int :=
  (stockList.getD []).foldl (fun acc s => acc + cantidadField s) 0

/-- `sugerida` at lines 140-142: `(stockList || []).find(s =>
Number(cantidadField(s)) >= Number(it.cantidad))?.id_sucursal ?? null`. -/
def sucursalSugerida (stockList : Option (List StockEntry)) (solicitado : Int) :
    Option String :=
  ((stockList.getD []).find? fun s => solicitado ≤ cantidadField s).bind
    fun s => s.id_sucursal

/-- The object returned per ingredient at lines 144-149. -/
def mkItem (it : Ingrediente) (stockList : Option (List StockEntry)) :
    ValidationItem :=
  { id_producto := it.id_producto
    solicitado := it.cantidad
    disponible := totalDisponible stockList
    id_sucursal_sugerida := sucursalSugerida stockList it.cantidad }

/-- `estado_sugerido` derivation at lines 153-158: `ok = items.every(i =>
i.disponible >= i.solicitado)`, `parcial = !ok && items.some(i =>
i.disponible > 0)`, then `ok ? "VALIDADA" : parcial ? "PARCIAL" :
"RECHAZADA"`. -/
def estadoSugerido (items : List ValidationItem) : String :=
  let ok := items.all fun i => i.solicitado ≤ i.disponible
  let parcial := !ok && (items.any fun i => 0 < i.disponible)
  if ok then "VALIDADA" else if parcial then "PARCIAL" else "RECHAZADA"

/-- The validator's result object (line 156-160). -/
structure ValidationResult where
  id_receta : String
  estado_sugerido : String
  items : List ValidationItem
deriving DecidableEq, Repr

/-- The recipe validation of `GET /recetas/:id_receta/validacion` after
the recipe payload has been fetched: one stock lookup per ingredient
(`stock` maps a product id to that lookup's outcome; `.ok none` models a
null payload, guarded in the code by `stockList || []`), joined
all-or-nothing as `Promise.all` does, then the items and the status. -/
def validarReceta (receta : Receta)
    (stock : String → Except UpErr (Option (List StockEntry))) :
    Except UpErr ValidationResult :=
  ((receta.detalle.getD []).mapM fun it =>
      (stock it.id_producto).map fun sl => mkItem it sl).map
    fun items =>
      { id_receta := receta.id_receta
        estado_sugerido := estadoSugerido items
        items := items }

/-- The `.catch` attached to the catalog fetch (lines 99-103): a 404
response resolves to `null` (product absent), every other failure is
rethrown. -/
def catalogoResolved : Except UpErr JSVal → Except UpErr (Option JSVal)
  | .ok v => .ok (some v)
  | .error (.httpError st body) =>
      if st = 404 then .ok none else .error (.httpError st body)
  | .error e => .error e

/-- `Promise.all` over two already-started promises: succeeds with the
pair when both fulfil; rejects with the sole rejection when exactly one
rejects; when both reject it rejects with whichever settled first in
time, which is the `aFirst` parameter. -/
def promiseAll2 {α β : Type} (a : Except UpErr α) (b : Except UpErr β)
    (aFirst : Bool) : Except UpErr (α × β) :=
  match a, b with
  | .ok x, .ok y => .ok (x, y)
  | .error e, .ok _ => .error e
  | .ok _, .error e => .error e
  | .error ea, .error eb => .error (if aFirst then ea else eb)

/-- The `Promise.all` join of `GET /disponibilidad` (lines 95-109): the
catalog result passes through its 404-tolerant `.catch` first, and is
joined with the raw inventory result. `catalogoFirst` says which promise
settles first (relevant only when both reject). -/
def getAvailability (prodRes invRes : Except UpErr JSVal)
    (catalogoFirst : Bool) : Except UpErr (Option JSVal × JSVal) :=
  promiseAll2 (catalogoResolved prodRes) invRes catalogoFirst

/-- The `!id_producto` guard of line 93: true when the query parameter is
absent or the empty string (the only falsy string). -/
def idProductoMissing : Option String → Bool
  | none => true
  | some s => s = ""

/-- JSON encoding of a nullable payload. -/
def optJS : Option JSVal → JSVal
  | none => .null
  | some v => v

/-- The whole `GET /disponibilidad` handler (lines 90-116) as a function
from the parsed query parameter and the two upstream outcomes to the
HTTP `(status, body)` response: the guard answers 400 before the fetches,
a successful join is serialised as `{producto, sucursales}`, and a
rejection goes through `mapUpstreamError`. -/
def disponibilidadHandler (id_producto : Option String)
    (prodRes invRes : Except UpErr JSVal) (catalogoFirst : Bool) :
    Int × JSVal :=
  if idProductoMissing id_producto then
    (400, .obj [("error", .str "id_producto requerido")])
  else
    match getAvailability prodRes invRes catalogoFirst with
    | .ok (producto, sucursales) =>
        (200, .obj [("producto", optJS producto), ("sucursales", sucursales)])
    | .error e => mapUpstreamError e

/-- An upstream HTTP request the handler may issue. -/
inductive UpstreamCall where
  | catalogo (id_producto : String) : UpstreamCall
  | inventarioStock (id_producto : String) (distrito : Option String) : UpstreamCall
deriving DecidableEq, Repr

/-- The upstream requests `GET /disponibilidad` issues: none when the
guard fires (the code returns 400 before the `Promise.all`), otherwise
the catalog lookup and the inventory lookup. -/
def disponibilidadCalls (id_producto distrito : Option String) :
    List UpstreamCall :=
  if idProductoMissing id_producto then []
  else [.catalogo (id_producto.getD ""),
        .inventarioStock (id_producto.getD "") distrito]

/-! ## Helper lemmas -/

/-- `List.find?` returns the entry at index `j` when that entry satisfies
the predicate and every earlier entry does not. -/
lemma find?_eq_get_of_first {α : Type} (p : α → Bool) (l : List α) (j : Nat)
    (hj : j < l.length) (hq : p (l.get ⟨j, hj⟩) = true)
    (hfirst : ∀ k (hk : k < l.length), k < j → p (l.get ⟨k, hk⟩) = false) :
    l.find? p = some (l.get ⟨j, hj⟩) := by
  induction l generalizing j with
  | nil => exact absurd hj (Nat.not_lt_zero j)
  | cons a t ih =>
    cases j with
    | zero => exact List.find?_cons_of_pos t hq
    | succ n =>
      have ha : p a = false :=
        hfirst 0 (Nat.succ_pos t.length) (Nat.succ_pos n)
      rw [List.find?_cons_of_neg t (by rw [ha]; exact Bool.false_ne_true)]
      exact ih n (Nat.lt_of_succ_lt_succ hj) hq
        (fun k hk hkn =>
          hfirst (k + 1) (Nat.succ_lt_succ hk) (Nat.succ_lt_succ hkn))

/-- Folding addition of coerced quantities from `init` is `init` plus the
sum of the coerced quantities. -/
lemma foldl_add_cantidad (l : List StockEntry) (init : Int) :
    l.foldl (fun acc s => acc + cantidadField s) init
      = init + (l.map cantidadField).sum := by
  induction l generalizing init with
  | nil => simp
  | cons a t ih => simp [List.foldl_cons, ih, add_assoc]

/-- Case analysis of the `estado_sugerido` derivation, stated in `Prop`. -/
lemma estadoSugerido_cases (items : List ValidationItem) :
    (estadoSugerido items = "VALIDADA" ↔
        ∀ i ∈ items, i.solicitado ≤ i.disponible)
  ∧ (estadoSugerido items = "PARCIAL" ↔
        ¬ (∀ i ∈ items, i.solicitado ≤ i.disponible)
          ∧ ∃ i ∈ items, 0 < i.disponible)
  ∧ (estadoSugerido items = "RECHAZADA" ↔
        ¬ (∀ i ∈ items, i.solicitado ≤ i.disponible)
          ∧ ¬ ∃ i ∈ items, 0 < i.disponible) := by
  by_cases hall : ∀ i ∈ items, i.solicitado ≤ i.disponible
  · have hba : (items.all fun i => i.solicitado ≤ i.disponible) = true := by
      simp only [List.all_eq_true, decide_eq_true_iff]
      exact hall
    have hv : estadoSugerido items = "VALIDADA" := by
      simp [estadoSugerido, hba]
    refine ⟨?_, ?_, ?_⟩
    · rw [hv]
      exact ⟨fun _ => hall, fun _ => rfl⟩
    · rw [hv]
      exact ⟨fun h => absurd h (by decide), fun h => absurd hall h.1⟩
    · rw [hv]
      exact ⟨fun h => absurd h (by decide), fun h => absurd hall h.1⟩
  · have hba : (items.all fun i => i.solicitado ≤ i.disponible) = false := by
      rw [Bool.eq_false_iff]
      intro hcontra
      exact hall (by simpa only [List.all_eq_true, decide_eq_true_iff]
        using hcontra)
    by_cases hsome : ∃ i ∈ items, 0 < i.disponible
    · have hany : (items.any fun i => 0 < i.disponible) = true := by
        simp only [List.any_eq_true, decide_eq_true_iff]
        exact hsome
      have hp : estadoSugerido items = "PARCIAL" := by
        simp [estadoSugerido, hba, hany]
      refine ⟨?_, ?_, ?_⟩
      · rw [hp]
        exact ⟨fun h => absurd h (by decide), fun h => absurd h hall⟩
      · rw [hp]
        exact ⟨fun _ => ⟨hall, hsome⟩, fun _ => rfl⟩
      · rw [hp]
        exact ⟨fun h => absurd h (by decide), fun h => absurd hsome h.2⟩
    · have hany : (items.any fun i => 0 < i.disponible) = false := by
        rw [Bool.eq_false_iff]
        intro hcontra
        exact hsome (by simpa only [List.any_eq_true, decide_eq_true_iff]
          using hcontra)
      have hr : estadoSugerido items = "RECHAZADA" := by
        simp [estadoSugerido, hba, hany]
      refine ⟨?_, ?_, ?_⟩
      · rw [hr]
        exact ⟨fun h => absurd h (by decide), fun h => absurd h hall⟩
      · rw [hr]
        exact ⟨fun h => absurd h (by decide), fun h => absurd h.2 hsome⟩
      · rw [hr]
        exact ⟨fun _ => ⟨hall, hsome⟩, fun _ => rfl⟩

/-! ## Claim theorems -/

/-- Claim C3: when exactly one of the three quantity field names is set
to a numeric value and the other two are absent, the coerced quantity
equals that value; when none is set, it is 0. -/
theorem cantidadField_fallback :
    (∀ (v : Int) (suc : Option String),
        cantidadField { cantidad_actual := some v, stock_actual := none,
                        cantidad := none, id_sucursal := suc } = v)
  ∧ (∀ (v : Int) (suc : Option String),
        cantidadField { cantidad_actual := none, stock_actual := some v,
                        cantidad := none, id_sucursal := suc } = v)
  ∧ (∀ (v : Int) (suc : Option String),
        cantidadField { cantidad_actual := none, stock_actual := none,
                        cantidad := some v, id_sucursal := suc } = v)
  ∧ (∀ suc : Option String,
        cantidadField { cantidad_actual := none, stock_actual := none,
                        cantidad := none, id_sucursal := suc } = 0) :=
  ⟨fun _ _ => rfl, fun _ _ => rfl, fun _ _ => rfl, fun _ => rfl⟩

/-- Claim C6: the error mapper is a pure function matching the spec's
table case by case: upstream HTTP errors pass their status through with
`{error, upstream_status, upstream_body}`, unreachable upstreams map to
504 with `{error}`, and anything else maps to 500 with
`{error, detail}`. -/
theorem mapUpstreamError_matches_spec (e : UpErr) :
    mapUpstreamError e = errorMapperSpec e := by
  cases e <;> rfl

/-- Claim C8: an absent or empty `id_producto` makes the availability
endpoint answer 400 `{error: "id_producto requerido"}` whatever the
upstream outcomes would have been, and no upstream call is issued. -/
theorem disponibilidad_guard_invalid_argument
    (prodRes invRes : Except UpErr JSVal) (sched : Bool)
    (distrito : Option String) :
    disponibilidadHandler none prodRes invRes sched
        = (400, .obj [("error", .str "id_producto requerido")])
  ∧ disponibilidadHandler (some "") prodRes invRes sched
        = (400, .obj [("error", .str "id_producto requerido")])
  ∧ disponibilidadCalls none distrito = []
  ∧ disponibilidadCalls (some "") distrito = [] :=
  ⟨rfl, rfl, rfl, rfl⟩

/-- Claim C9: when the recipe payload has no `detalle` (absent or null),
validation does not fail: it returns `VALIDADA` with an empty item
list. -/
theorem validarReceta_detalle_ausente (idr : String)
    (stock : String → Except UpErr (Option (List StockEntry))) :
    validarReceta { id_receta := idr, detalle := none } stock
      = .ok { id_receta := idr, estado_sugerido := "VALIDADA", items := [] } :=
  rfl

/-- Claim C1: for every successful validation result, the status is
`VALIDADA` iff every item has `disponible ≥ solicitado`, `PARCIAL` iff
not every item is feasible but some item has `disponible > 0`, and
`RECHAZADA` otherwise; moreover an empty ingredient list yields
`VALIDADA` with an empty item list. -/
theorem estado_sugerido_correct (receta : Receta)
    (stock : String → Except UpErr (Option (List StockEntry)))
    (res : ValidationResult) (h : validarReceta receta stock = .ok res) :
    ((res.estado_sugerido = "VALIDADA") ↔
        ∀ i ∈ res.items, i.solicitado ≤ i.disponible)
  ∧ ((res.estado_sugerido = "PARCIAL") ↔
        ¬ (∀ i ∈ res.items, i.solicitado ≤ i.disponible)
          ∧ ∃ i ∈ res.items, 0 < i.disponible)
  ∧ ((res.estado_sugerido = "RECHAZADA") ↔
        ¬ (∀ i ∈ res.items, i.solicitado ≤ i.disponible)
          ∧ ¬ ∃ i ∈ res.items, 0 < i.disponible)
  ∧ (receta.detalle.getD [] = [] →
        res.estado_sugerido = "VALIDADA" ∧ res.items = []) := by
  unfold validarReceta at h
  cases hm : (receta.detalle.getD []).mapM
      (fun it => (stock it.id_producto).map fun sl => mkItem it sl) with
  | error e => rw [hm] at h; exact absurd h (by simp [Except.map])
  | ok items =>
    rw [hm] at h
    simp only [Except.map, Except.ok.injEq] at h
    have hestado : res.estado_sugerido = estadoSugerido items := by
      rw [← h]
    have hitems : res.items = items := by
      rw [← h]
    obtain ⟨h1, h2, h3⟩ := estadoSugerido_cases items
    refine ⟨?_, ?_, ?_, ?_⟩
    · rw [hestado, hitems]; exact h1
    · rw [hestado, hitems]; exact h2
    · rw [hestado, hitems]; exact h3
    · intro hdet
      rw [hdet] at hm
      have hnil : items = [] := by
        simpa only [List.mapM_nil, pure, Except.pure, Except.ok.injEq]
          using hm.symm
      subst hnil
      exact ⟨by rw [hestado]; rfl, hitems⟩

/-- Witness for C1: the spec's worked example — ingredients
`[{A, 5}, {B, 3}]`, stock for A `[{S1, 2}, {S2, 10}]`, stock for B
`[{S1, 1}]` — validates to status `PARCIAL`. -/
theorem estado_sugerido_correct_witness :
    ({ id_receta := "r1", estado_sugerido := "PARCIAL",
       items := [⟨"A", 5, 12, some "S2"⟩, ⟨"B", 3, 1, none⟩] } :
      ValidationResult).estado_sugerido = "PARCIAL" :=
  (estado_sugerido_correct
    { id_receta := "r1", detalle := some [⟨"A", 5⟩, ⟨"B", 3⟩] }
    (fun pid =>
      if pid = "A" then
        .ok (some [⟨some 2, none, none, some "S1"⟩,
                   ⟨some 10, none, none, some "S2"⟩])
      else
        .ok (some [⟨some 1, none, none, some "S1"⟩]))
    { id_receta := "r1", estado_sugerido := "PARCIAL",
      items := [⟨"A", 5, 12, some "S2"⟩, ⟨"B", 3, 1, none⟩] }
    rfl).2.1.mpr (by decide)

/-- Claim C2: `id_sucursal_sugerida` is the branch id of the first stock
entry, in list order, whose own coerced quantity alone covers the
requested quantity, and is null when no entry qualifies. -/
theorem sucursal_sugerida_first_match (it : Ingrediente)
    (l : List StockEntry) :
    (∀ j (hj : j < l.length),
        it.cantidad ≤ cantidadField (l.get ⟨j, hj⟩) →
        (∀ k (hk : k < l.length), k < j →
            ¬ it.cantidad ≤ cantidadField (l.get ⟨k, hk⟩)) →
        (mkItem it (some l)).id_sucursal_sugerida
          = (l.get ⟨j, hj⟩).id_sucursal)
  ∧ ((∀ k (hk : k < l.length),
        ¬ it.cantidad ≤ cantidadField (l.get ⟨k, hk⟩)) →
      (mkItem it (some l)).id_sucursal_sugerida = none) := by
  constructor
  · intro j hj hq hfirst
    have hfind := find?_eq_get_of_first
      (fun s => decide (it.cantidad ≤ cantidadField s)) l j hj
      (by simpa using hq)
      (fun k hk hkj => by simpa using hfirst k hk hkj)
    simp [mkItem, sucursalSugerida, hfind]
  · intro hnone
    have hfind :
        (l.find? fun s => decide (it.cantidad ≤ cantidadField s)) = none := by
      rw [List.find?_eq_none]
      intro x hx
      obtain ⟨⟨k, hk⟩, rfl⟩ := List.mem_iff_get.mp hx
      simpa using hnone k hk
    simp [mkItem, sucursalSugerida, hfind]

/-- Witness for C2: the spec's tie-break example — stock
`[{S1, 5}, {S2, 100}]` with requested quantity 5 suggests `S1`, the
first qualifying entry in list order, not the one with the maximum. -/
theorem sucursal_sugerida_first_match_witness :
    (mkItem ⟨"P1", 5⟩
        (some [⟨some 5, none, none, some "S1"⟩,
               ⟨some 100, none, none, some "S2"⟩])).id_sucursal_sugerida
      = some "S1" :=
  (sucursal_sugerida_first_match ⟨"P1", 5⟩
      [⟨some 5, none, none, some "S1"⟩,
       ⟨some 100, none, none, some "S2"⟩]).1
    0 (by decide) (by decide)
    (fun k _ hk0 => absurd hk0 (Nat.not_lt_zero k))

/-- Claim C10: when the first qualifying stock entry carries no
`id_sucursal`, the suggestion is null — the search does not fall through
to a later qualifying entry that does carry a branch id. -/
theorem sugerida_sin_sucursal_no_fallthrough (it : Ingrediente)
    (l : List StockEntry) (j : Nat) (hj : j < l.length)
    (hq : it.cantidad ≤ cantidadField (l.get ⟨j, hj⟩))
    (hfirst : ∀ k (hk : k < l.length), k < j →
        ¬ it.cantidad ≤ cantidadField (l.get ⟨k, hk⟩))
    (hnone : (l.get ⟨j, hj⟩).id_sucursal = none) :
    (mkItem it (some l)).id_sucursal_sugerida = none := by
  have hfind := find?_eq_get_of_first
    (fun s => decide (it.cantidad ≤ cantidadField s)) l j hj
    (by simpa using hq)
    (fun k hk hkj => by simpa using hfirst k hk hkj)
  simpa [mkItem, sucursalSugerida, hfind] using hnone

/-- Witness for C10: stock `[{no branch id, 10}, {S2, 10}]` with
requested quantity 5 suggests nothing even though the second entry also
qualifies and has a branch id. -/
theorem sugerida_sin_sucursal_no_fallthrough_witness :
    (mkItem ⟨"A", 5⟩
        (some [⟨some 10, none, none, none⟩,
               ⟨some 10, none, none, some "S2"⟩])).id_sucursal_sugerida
      = none :=
  sugerida_sin_sucursal_no_fallthrough ⟨"A", 5⟩
    [⟨some 10, none, none, none⟩, ⟨some 10, none, none, some "S2"⟩]
    0 (by decide) (by decide)
    (fun k _ hk0 => absurd hk0 (Nat.not_lt_zero k))
    rfl

/-- Claim C4: when the catalog lookup fails with an upstream 404 and the
inventory lookup succeeds, the availability endpoint answers 200 with
`producto = null` and `sucursales` exactly the inventory payload. -/
theorem disponibilidad_producto_404 (id : String) (hid : id ≠ "")
    (body inv : JSVal) (sched : Bool) :
    disponibilidadHandler (some id) (.error (.httpError 404 body)) (.ok inv)
        sched
      = (200, .obj [("producto", JSVal.null), ("sucursales", inv)]) := by
  have hmiss : idProductoMissing (some id) = false := by
    simp [idProductoMissing, hid]
  simp [disponibilidadHandler, hmiss, getAvailability, catalogoResolved,
    promiseAll2, optJS]

/-- Witness for C4 at a concrete product id and inventory payload. -/
theorem disponibilidad_producto_404_witness :
    disponibilidadHandler (some "p1") (.error (.httpError 404 JSVal.null))
        (.ok (JSVal.arr [])) true
      = (200, .obj [("producto", JSVal.null),
                    ("sucursales", JSVal.arr [])]) :=
  disponibilidad_producto_404 "p1" (by decide) JSVal.null (JSVal.arr []) true

/-- Counterexample to C5 as stated: a stock entry whose quantity field
holds the numeric value `-3` makes `disponible` negative — the coercion
only defaults absent/null fields to 0, it does not floor values. -/
theorem disponible_negativo_counterexample :
    (mkItem ⟨"p1", 5⟩
        (some [⟨some (-3), none, none, some "S1"⟩])).disponible = -3
  ∧ ¬ (0 ≤ (mkItem ⟨"p1", 5⟩
        (some [⟨some (-3), none, none, some "S1"⟩])).disponible) := by
  constructor
  · rfl
  · decide

/-- Claim C5 amended: `disponible` equals the sum of the coerced
quantities of all stock entries returned for the product, and it is
non-negative whenever every entry's coerced quantity is non-negative
(absent/null fields coerce to 0; negative upstream values pass
through). -/
theorem disponible_suma_coerced (it : Ingrediente)
    (sl : Option (List StockEntry)) :
    (mkItem it sl).disponible = ((sl.getD []).map cantidadField).sum
  ∧ ((∀ s ∈ sl.getD [], 0 ≤ cantidadField s) →
      0 ≤ (mkItem it sl).disponible) := by
  have hsum : (mkItem it sl).disponible
      = ((sl.getD []).map cantidadField).sum := by
    simp [mkItem, totalDisponible, foldl_add_cantidad]
  refine ⟨hsum, fun hpos => ?_⟩
  rw [hsum]
  apply List.sum_nonneg
  intro x hx
  obtain ⟨s, hs, rfl⟩ := List.mem_map.mp hx
  exact hpos s hs

/-- Witness for C5 amended: two entries using two different field names,
quantities 2 and 3, give a non-negative `disponible`. -/
theorem disponible_suma_coerced_witness :
    0 ≤ (mkItem ⟨"p1", 5⟩
        (some [⟨some 2, none, none, none⟩,
               ⟨none, some 3, none, none⟩])).disponible :=
  (disponible_suma_coerced ⟨"p1", 5⟩
      (some [⟨some 2, none, none, none⟩,
             ⟨none, some 3, none, none⟩])).2 (by decide)

/-- Counterexample to C7 as stated: with the catalog failing with a 500
and the inventory failing with a 503, if the catalog rejection settles
first the endpoint answers with the catalog's status 500 — the
inventory's 503 is not the one preserved, so "fails with that same
error regardless of the catalog lookup's outcome" does not hold. -/
theorem inventario_error_counterexample :
    (disponibilidadHandler (some "p1")
        (.error (.httpError 500 JSVal.null))
        (.error (.httpError 503 JSVal.null)) true).1 = 500
  ∧ (mapUpstreamError (.httpError 503 JSVal.null)).1 = 503
  ∧ ((500 : Int) ≠ 503) :=
  ⟨rfl, rfl, by decide⟩

/-- Claim C7 amended: when the inventory lookup fails with a non-404
upstream HTTP error, the join always fails; it fails with exactly the
inventory's error whenever the catalog lookup succeeds or fails with a
404 (whatever settles first), and the mapped response then preserves the
upstream status and body; only when the catalog also fails with a
non-404 error does the earlier of the two rejections win. -/
theorem inventario_error_propagates (st : Int) (body : JSVal)
    (_hst : st ≠ 404) (sched : Bool) :
    (∀ v, getAvailability (.ok v) (.error (.httpError st body)) sched
        = .error (.httpError st body))
  ∧ (∀ b, getAvailability (.error (.httpError 404 b))
        (.error (.httpError st body)) sched
        = .error (.httpError st body))
  ∧ (∀ prodRes, ∃ e,
        getAvailability prodRes (.error (.httpError st body)) sched
          = .error e)
  ∧ mapUpstreamError (.httpError st body)
      = (st, .obj [("error", .str "Upstream error"),
                   ("upstream_status", .num st),
                   ("upstream_body", body)]) := by
  refine ⟨?_, ?_, ?_, rfl⟩
  · intro v
    simp [getAvailability, catalogoResolved, promiseAll2]
  · intro b
    simp [getAvailability, catalogoResolved, promiseAll2]
  · intro prodRes
    cases hc : catalogoResolved prodRes with
    | ok x =>
      exact ⟨.httpError st body, by simp [getAvailability, promiseAll2, hc]⟩
    | error ec =>
      exact ⟨if sched then ec else .httpError st body,
        by simp [getAvailability, promiseAll2, hc]⟩

/-- Witness for C7 amended: a successful catalog lookup joined with an
inventory 503 rejects with exactly that 503. -/
theorem inventario_error_propagates_witness :
    getAvailability (.ok JSVal.null)
        (.error (.httpError 503 JSVal.null)) true
      = .error (.httpError 503 JSVal.null) :=
  (inventario_error_propagates 503 JSVal.null (by decide) true).1 JSVal.null
